import Mathlib

/-
Verification development for the CodeBuildTriggerFunction custom-resource
dispatcher embedded in the CloudFormation template of this repository.
The Python handler (functions lambda_handler, get_cfn_env_var_overrides,
handle_create, handle_delete, handle_update) is shallowly embedded below.
External collaborators are abstracted as parameters: the build-trigger
service (boto3 codebuild.start_build) is a function from a build request
to either a fault or a build result, and the response endpoint
(cfnresponse.send) is modelled as appending the payload the dispatcher
hands it to the list of sent payloads.
-/

namespace CodeBuildTrigger

/-- JSON-like values that can appear in the free-form ResourceProperties
map of a CloudFormation event. -/
inductive Value where
  | str (s : String)
  | bool (b : Bool)
  | num (n : Int)
  | null
deriving DecidableEq

/-- Python truthiness of a property value, as used by the source in
conditions such as `if build_on_delete:`. -/
def truthy : Value → Bool
  | .str s => s ≠ ""
  | .bool b => b
  | .num n => n ≠ 0
  | .null => false

/-- Python truthiness of the result of `dict.get(key)`: an absent key
(`None`) is falsy. -/
def truthyOpt : Option Value → Bool
  | none => false
  | some v => truthy v

/-- The ResourceProperties mapping, as an association list. -/
abbrev Props := List (String × Value)

/-- Embeds `dict.get(key)`: value of the first binding of the key, or
`none` when the key is absent. -/
def propGet : Props → String → Option Value
  | [], _ => none
  | q :: t, k => if q.1 = k then some q.2 else propGet t k

/-- Removes every binding of a key, leaving the rest of the map intact. -/
def propDel : Props → String → Props
  | [], _ => []
  | q :: t, k => if q.1 = k then propDel t k else q :: propDel t k

/-- Sets the binding of a key to a given value, or removes it when given
`none`; used to state how the dispatcher reacts to changing one flag. -/
def propSet (l : Props) (k : String) : Option Value → Props
  | none => propDel l k
  | some v => (k, v) :: propDel l k

/-- The dispatcher view of a CloudFormation lifecycle event, with the
fields the source reads. PhysicalResourceId and ResourceProperties are
optional because the source handles (or faults on) their absence. -/
structure Event where
  requestType : String
  logicalResourceId : String
  requestId : String
  stackId : String
  responseURL : String
  physicalResourceId : Option String
  resourceProperties : Option Props
deriving DecidableEq

/-- Embeds the defaulted read of ResourceProperties from the source: the
property map of the event, or the empty map when the field is absent. -/
def resConfig (e : Event) : Props :=
  e.resourceProperties.getD []

/-- A fault raised while handling an event: a Python KeyError on a missing
key, or a fault from the external build-trigger call. -/
inductive Fault where
  | keyError (key : String)
  | buildError (message : String)
deriving DecidableEq

/-- Embeds Python `str(e)` on a fault: `str` of a KeyError is the missing
key wrapped in single quotes. -/
def Fault.describe : Fault → String
  | .keyError k => "\x27" ++ k ++ "\x27"
  | .buildError m => m

/-- One CodeBuild environment-variable override entry, as built by
`get_cfn_env_var_overrides`. -/
structure EnvVar where
  name : String
  type : String
  value : String
deriving DecidableEq

/-- The arguments the dispatcher passes to `codebuild.start_build`. -/
structure BuildRequest where
  projectName : Value
  environmentVariablesOverride : List EnvVar
deriving DecidableEq

/-- The fields of the `start_build` result that the source reads
(`result["build"]["arn"]` and `result["build"]["buildNumber"]`). -/
structure BuildResult where
  arn : String
  buildNumber : Nat
deriving DecidableEq

/-- The data the dispatcher hands to `cfnresponse.send` for one report:
status constant, the Reason entry of the data dictionary, and the
physicalResourceId argument (`none` when the source omits it and the
reporting library fills in its default). -/
structure Payload where
  status : String
  reason : String
  physicalResourceId : Option String
deriving DecidableEq

/-- Outcome of handling one event: build requests issued, payloads handed
to `cfnresponse.send`, and the fault raised, if any. -/
structure HResult where
  builds : List BuildRequest
  payloads : List Payload
  fault : Option Fault
deriving DecidableEq

/-- The external build-trigger service: `codebuild.start_build` either
returns a build result or raises a fault. -/
abbrev StartBuild := BuildRequest → Except Fault BuildResult

/-- Escapes a character for a JSON string literal, as `json.dumps` does
for the quote and backslash characters. -/
def jsonEscapeChar (c : Char) : String :=
  if c = '\\' then "\\\\"
  else if c = '"' then "\\\""
  else String.singleton c

/-- Escapes a string for inclusion in a JSON string literal. -/
def jsonEscape (s : String) : String :=
  String.join (s.toList.map jsonEscapeChar)

/-- Renders a JSON string literal. -/
def jsonString (s : String) : String :=
  "\"" ++ jsonEscape s ++ "\""

/-- Renders a property value as JSON, as `json.dumps` does. -/
def jsonValue : Value → String
  | .str s => jsonString s
  | .bool true => "true"
  | .bool false => "false"
  | .num n => toString n
  | .null => "null"

/-- Embeds the `json.dumps` call of `get_cfn_env_var_overrides`: the
CFN_EVENT_DATA JSON object, keys in source insertion order, with Python
default separators. The source reads NoEcho from the property map (it is
only reached when the map is present, so the defaulted read used here
coincides with the strict read in the source). -/
def cfnEventData (e : Event) : String :=
  "\x7b\"LogicalResourceId\": " ++ jsonString e.logicalResourceId
    ++ ", \"RequestId\": " ++ jsonString e.requestId
    ++ ", \"StackId\": " ++ jsonString e.stackId
    ++ ", \"NoEcho\": " ++ jsonValue ((propGet (resConfig e) "NoEcho").getD (.bool false))
    ++ ", \"Data\": \x7b\x7d\x7d"

/-- Embeds `get_cfn_env_var_overrides` from the source: always the
CFN_EVENT_TYPE entry, plus CFN_EVENT_DATA and CFN_EVENT_RESPONSE_URL when
the CodeBuildCallback property is truthy. -/
def get_cfn_env_var_overrides (e : Event) : List EnvVar :=
  if truthyOpt (propGet (resConfig e) "CodeBuildCallback") then
    [EnvVar.mk "CFN_EVENT_TYPE" "PLAINTEXT" e.requestType,
     EnvVar.mk "CFN_EVENT_DATA" "PLAINTEXT" (cfnEventData e),
     EnvVar.mk "CFN_EVENT_RESPONSE_URL" "PLAINTEXT" e.responseURL]
  else
    [EnvVar.mk "CFN_EVENT_TYPE" "PLAINTEXT" e.requestType]

/-- Embeds `handle_create` from the source: reads ResourceProperties
strictly (KeyError when absent), starts a build for ProjectName with the
environment overrides, and reports SUCCESS with the build number and the
build ARN as physical resource id unless CodeBuildCallback is truthy. -/
def handle_create (sb : StartBuild) (e : Event) : HResult :=
  match e.resourceProperties with
  | none => HResult.mk [] [] (some (Fault.keyError "ResourceProperties"))
  | some rc =>
    match propGet rc "ProjectName" with
    | none => HResult.mk [] [] (some (Fault.keyError "ProjectName"))
    | some pn =>
      match sb (BuildRequest.mk pn (get_cfn_env_var_overrides e)) with
      | .error f => HResult.mk [] [] (some f)
      | .ok r =>
        if truthyOpt (propGet rc "CodeBuildCallback") then
          HResult.mk [BuildRequest.mk pn (get_cfn_env_var_overrides e)] [] none
        else
          HResult.mk [BuildRequest.mk pn (get_cfn_env_var_overrides e)]
            [Payload.mk "SUCCESS" ("Started CodeBuild #" ++ toString r.buildNumber)
              (some r.arn)]
            none

/-- Embeds `handle_delete` from the source: starts a build only when
BuildOnDelete is truthy, and reports SUCCESS (with the event incoming
PhysicalResourceId, a KeyError when it is absent) unless both
BuildOnDelete and CodeBuildCallback are truthy. -/
def handle_delete (sb : StartBuild) (e : Event) : HResult :=
  if truthyOpt (propGet (resConfig e) "BuildOnDelete") then
    match propGet (resConfig e) "ProjectName" with
    | none => HResult.mk [] [] (some (Fault.keyError "ProjectName"))
    | some pn =>
      match sb (BuildRequest.mk pn (get_cfn_env_var_overrides e)) with
      | .error f => HResult.mk [] [] (some f)
      | .ok _ =>
        if truthyOpt (propGet (resConfig e) "CodeBuildCallback") then
          HResult.mk [BuildRequest.mk pn (get_cfn_env_var_overrides e)] [] none
        else
          match e.physicalResourceId with
          | none =>
            HResult.mk [BuildRequest.mk pn (get_cfn_env_var_overrides e)] []
              (some (Fault.keyError "PhysicalResourceId"))
          | some pid =>
            HResult.mk [BuildRequest.mk pn (get_cfn_env_var_overrides e)]
              [Payload.mk "SUCCESS" "Deletion build initiated" (some pid)] none
  else
    match e.physicalResourceId with
    | none => HResult.mk [] [] (some (Fault.keyError "PhysicalResourceId"))
    | some pid =>
      HResult.mk [] [Payload.mk "SUCCESS" "Delete is a no-op" (some pid)] none

/-- Embeds `handle_update` from the source: a no-op report when
IgnoreUpdate is truthy, otherwise starts a build and reports unless the
MISSPELLED property CodeBuildCalback (sic, as written in the source) is
truthy; reports reuse the event incoming PhysicalResourceId. -/
def handle_update (sb : StartBuild) (e : Event) : HResult :=
  if truthyOpt (propGet (resConfig e) "IgnoreUpdate") then
    match e.physicalResourceId with
    | none => HResult.mk [] [] (some (Fault.keyError "PhysicalResourceId"))
    | some pid =>
      HResult.mk [] [Payload.mk "SUCCESS" "Update is a no-op" (some pid)] none
  else
    match propGet (resConfig e) "ProjectName" with
    | none => HResult.mk [] [] (some (Fault.keyError "ProjectName"))
    | some pn =>
      match sb (BuildRequest.mk pn (get_cfn_env_var_overrides e)) with
      | .error f => HResult.mk [] [] (some f)
      | .ok r =>
        if truthyOpt (propGet (resConfig e) "CodeBuildCalback") then
          HResult.mk [BuildRequest.mk pn (get_cfn_env_var_overrides e)] [] none
        else
          match e.physicalResourceId with
          | none =>
            HResult.mk [BuildRequest.mk pn (get_cfn_env_var_overrides e)] []
              (some (Fault.keyError "PhysicalResourceId"))
          | some pid =>
            HResult.mk [BuildRequest.mk pn (get_cfn_env_var_overrides e)]
              [Payload.mk "SUCCESS" ("Started CodeBuild #" ++ toString r.buildNumber)
                (some pid)]
              none

/-- Embeds the try-block body of `lambda_handler`: the branch on
RequestType, with the FAILED report for an unsupported type. -/
def dispatch (sb : StartBuild) (e : Event) : HResult :=
  if e.requestType = "Create" then handle_create sb e
  else if e.requestType = "Update" then handle_update sb e
  else if e.requestType = "Delete" then handle_delete sb e
  else
    HResult.mk []
      [Payload.mk "FAILED"
        ("Unsupported CFN RequestType \x27" ++ e.requestType ++ "\x27") none]
      none

/-- Embeds `lambda_handler` from the source: runs the dispatch and, when
it raised a fault, additionally sends a FAILED report whose reason is the
description of the fault, then re-raises the fault. -/
def lambda_handler (sb : StartBuild) (e : Event) : HResult :=
  match (dispatch sb e).fault with
  | none => dispatch sb e
  | some f =>
    HResult.mk (dispatch sb e).builds
      ((dispatch sb e).payloads ++ [Payload.mk "FAILED" (Fault.describe f) none])
      (some f)

/-- Replaces (or with `none`, removes) one resource property of an event,
leaving everything else unchanged. -/
def Event.withProp (e : Event) (k : String) (o : Option Value) : Event :=
  Event.mk e.requestType e.logicalResourceId e.requestId e.stackId e.responseURL
    e.physicalResourceId (some (propSet (resConfig e) k o))

theorem dispatch_create (sb : StartBuild) (e : Event) (h : e.requestType = "Create") :
    dispatch sb e = handle_create sb e := by
  unfold dispatch
  rw [h, if_pos rfl]

theorem dispatch_update (sb : StartBuild) (e : Event) (h : e.requestType = "Update") :
    dispatch sb e = handle_update sb e := by
  unfold dispatch
  rw [h, if_neg (by decide), if_pos rfl]

theorem dispatch_delete (sb : StartBuild) (e : Event) (h : e.requestType = "Delete") :
    dispatch sb e = handle_delete sb e := by
  unfold dispatch
  rw [h, if_neg (by decide), if_neg (by decide), if_pos rfl]

theorem dispatch_other (sb : StartBuild) (e : Event)
    (h1 : e.requestType ≠ "Create") (h2 : e.requestType ≠ "Update")
    (h3 : e.requestType ≠ "Delete") :
    dispatch sb e =
      HResult.mk []
        [Payload.mk "FAILED"
          ("Unsupported CFN RequestType \x27" ++ e.requestType ++ "\x27") none]
        none := by
  unfold dispatch
  rw [if_neg h1, if_neg h2, if_neg h3]

theorem lambda_handler_of_no_fault (sb : StartBuild) (e : Event)
    (h : (dispatch sb e).fault = none) :
    lambda_handler sb e = dispatch sb e := by
  unfold lambda_handler
  rw [h]

theorem lambda_handler_of_fault (sb : StartBuild) (e : Event) (f : Fault)
    (h : (dispatch sb e).fault = some f) :
    lambda_handler sb e =
      HResult.mk (dispatch sb e).builds
        ((dispatch sb e).payloads ++ [Payload.mk "FAILED" (Fault.describe f) none])
        (some f) := by
  unfold lambda_handler
  rw [h]

theorem propGet_propDel_same (l : Props) (k : String) :
    propGet (propDel l k) k = none := by
  induction l with
  | nil => rfl
  | cons a t ih =>
    by_cases h : a.1 = k
    · simp [propDel, h, ih]
    · simp [propDel, propGet, h, ih]

theorem propGet_propDel_ne (l : Props) (k q : String) (h : q ≠ k) :
    propGet (propDel l k) q = propGet l q := by
  induction l with
  | nil => rfl
  | cons a t ih =>
    have hkq : ¬ k = q := fun hq => h hq.symm
    by_cases hak : a.1 = k
    · have haq : ¬ a.1 = q := by rw [hak]; exact hkq
      simp [propDel, propGet, hak, haq, hkq, ih]
    · by_cases haq : a.1 = q
      · simp [propDel, propGet, hak, haq, h]
      · simp [propDel, propGet, hak, haq, ih]

theorem propGet_propSet_same (l : Props) (k : String) (o : Option Value) :
    propGet (propSet l k o) k = o := by
  cases o with
  | none => exact propGet_propDel_same l k
  | some v => simp [propSet, propGet]

theorem propGet_propSet_ne (l : Props) (k q : String) (o : Option Value) (h : q ≠ k) :
    propGet (propSet l k o) q = propGet l q := by
  cases o with
  | none => exact propGet_propDel_ne l k q h
  | some v =>
    have hkq : ¬ k = q := fun hq => h hq.symm
    simp [propSet, propGet, hkq, propGet_propDel_ne l k q h]

theorem handle_create_reports (sb : StartBuild) (e : Event) (props : Props)
    (pn : Value) (r : BuildResult)
    (hp : e.resourceProperties = some props)
    (hpn : propGet props "ProjectName" = some pn)
    (hcb : truthyOpt (propGet props "CodeBuildCallback") = false)
    (hsb : sb (BuildRequest.mk pn (get_cfn_env_var_overrides e)) = Except.ok r) :
    handle_create sb e =
      HResult.mk [BuildRequest.mk pn (get_cfn_env_var_overrides e)]
        [Payload.mk "SUCCESS" ("Started CodeBuild #" ++ toString r.buildNumber)
          (some r.arn)]
        none := by
  simp [handle_create, hp, hpn, hsb, hcb]

theorem handle_create_delegates (sb : StartBuild) (e : Event) (props : Props)
    (pn : Value) (r : BuildResult)
    (hp : e.resourceProperties = some props)
    (hpn : propGet props "ProjectName" = some pn)
    (hcb : truthyOpt (propGet props "CodeBuildCallback") = true)
    (hsb : sb (BuildRequest.mk pn (get_cfn_env_var_overrides e)) = Except.ok r) :
    handle_create sb e =
      HResult.mk [BuildRequest.mk pn (get_cfn_env_var_overrides e)] [] none := by
  simp [handle_create, hp, hpn, hsb, hcb]

theorem handle_update_ignores (sb : StartBuild) (e : Event) (pid : String)
    (hiu : truthyOpt (propGet (resConfig e) "IgnoreUpdate") = true)
    (hpid : e.physicalResourceId = some pid) :
    handle_update sb e =
      HResult.mk [] [Payload.mk "SUCCESS" "Update is a no-op" (some pid)] none := by
  simp [handle_update, hiu, hpid]

theorem handle_delete_noop (sb : StartBuild) (e : Event) (pid : String)
    (hbod : truthyOpt (propGet (resConfig e) "BuildOnDelete") = false)
    (hpid : e.physicalResourceId = some pid) :
    handle_delete sb e =
      HResult.mk [] [Payload.mk "SUCCESS" "Delete is a no-op" (some pid)] none := by
  simp [handle_delete, hbod, hpid]

theorem handle_delete_builds (sb : StartBuild) (e : Event) (pid : String)
    (pn : Value) (r : BuildResult)
    (hbod : truthyOpt (propGet (resConfig e) "BuildOnDelete") = true)
    (hpn : propGet (resConfig e) "ProjectName" = some pn)
    (hsb : sb (BuildRequest.mk pn (get_cfn_env_var_overrides e)) = Except.ok r)
    (hpid : e.physicalResourceId = some pid) :
    handle_delete sb e =
      HResult.mk [BuildRequest.mk pn (get_cfn_env_var_overrides e)]
        (if truthyOpt (propGet (resConfig e) "CodeBuildCallback") then []
         else [Payload.mk "SUCCESS" "Deletion build initiated" (some pid)])
        none := by
  by_cases hcb : truthyOpt (propGet (resConfig e) "CodeBuildCallback") = true
  · simp [handle_delete, hbod, hpn, hsb, hcb]
  · rw [Bool.not_eq_true] at hcb
    simp [handle_delete, hbod, hpn, hsb, hcb, hpid]

theorem handle_delete_noop_missing_pid (sb : StartBuild) (e : Event)
    (hbod : truthyOpt (propGet (resConfig e) "BuildOnDelete") = false)
    (hpid : e.physicalResourceId = none) :
    handle_delete sb e =
      HResult.mk [] [] (some (Fault.keyError "PhysicalResourceId")) := by
  simp [handle_delete, hbod, hpid]

theorem handle_delete_builds_missing_pid (sb : StartBuild) (e : Event)
    (pn : Value) (r : BuildResult)
    (hbod : truthyOpt (propGet (resConfig e) "BuildOnDelete") = true)
    (hcb : truthyOpt (propGet (resConfig e) "CodeBuildCallback") = false)
    (hpn : propGet (resConfig e) "ProjectName" = some pn)
    (hsb : sb (BuildRequest.mk pn (get_cfn_env_var_overrides e)) = Except.ok r)
    (hpid : e.physicalResourceId = none) :
    handle_delete sb e =
      HResult.mk [BuildRequest.mk pn (get_cfn_env_var_overrides e)] []
        (some (Fault.keyError "PhysicalResourceId")) := by
  simp [handle_delete, hbod, hpn, hsb, hcb, hpid]

theorem handle_create_shape (sb : StartBuild) (e : Event) :
    (handle_create sb e).fault = none ∨ (handle_create sb e).payloads = [] := by
  rcases hrp : e.resourceProperties with _ | rc
  · simp [handle_create, hrp]
  · rcases hpn : propGet rc "ProjectName" with _ | pn
    · simp [handle_create, hrp, hpn]
    · rcases hsb : sb (BuildRequest.mk pn (get_cfn_env_var_overrides e)) with f | r
      · simp [handle_create, hrp, hpn, hsb]
      · by_cases hcb : truthyOpt (propGet rc "CodeBuildCallback") = true
        · simp [handle_create, hrp, hpn, hsb, hcb]
        · rw [Bool.not_eq_true] at hcb
          simp [handle_create, hrp, hpn, hsb, hcb]

theorem handle_delete_shape (sb : StartBuild) (e : Event) :
    (handle_delete sb e).fault = none ∨ (handle_delete sb e).payloads = [] := by
  by_cases hbod : truthyOpt (propGet (resConfig e) "BuildOnDelete") = true
  · rcases hpn : propGet (resConfig e) "ProjectName" with _ | pn
    · simp [handle_delete, hbod, hpn]
    · rcases hsb : sb (BuildRequest.mk pn (get_cfn_env_var_overrides e)) with f | r
      · simp [handle_delete, hbod, hpn, hsb]
      · by_cases hcb : truthyOpt (propGet (resConfig e) "CodeBuildCallback") = true
        · simp [handle_delete, hbod, hpn, hsb, hcb]
        · rw [Bool.not_eq_true] at hcb
          rcases hpid : e.physicalResourceId with _ | pid
          · simp [handle_delete, hbod, hpn, hsb, hcb, hpid]
          · simp [handle_delete, hbod, hpn, hsb, hcb, hpid]
  · rw [Bool.not_eq_true] at hbod
    rcases hpid : e.physicalResourceId with _ | pid
    · simp [handle_delete, hbod, hpid]
    · simp [handle_delete, hbod, hpid]

theorem handle_update_shape (sb : StartBuild) (e : Event) :
    (handle_update sb e).fault = none ∨ (handle_update sb e).payloads = [] := by
  by_cases hiu : truthyOpt (propGet (resConfig e) "IgnoreUpdate") = true
  · rcases hpid : e.physicalResourceId with _ | pid
    · simp [handle_update, hiu, hpid]
    · simp [handle_update, hiu, hpid]
  · rw [Bool.not_eq_true] at hiu
    rcases hpn : propGet (resConfig e) "ProjectName" with _ | pn
    · simp [handle_update, hiu, hpn]
    · rcases hsb : sb (BuildRequest.mk pn (get_cfn_env_var_overrides e)) with f | r
      · simp [handle_update, hiu, hpn, hsb]
      · by_cases hcb : truthyOpt (propGet (resConfig e) "CodeBuildCalback") = true
        · simp [handle_update, hiu, hpn, hsb, hcb]
        · rw [Bool.not_eq_true] at hcb
          rcases hpid : e.physicalResourceId with _ | pid
          · simp [handle_update, hiu, hpn, hsb, hcb, hpid]
          · simp [handle_update, hiu, hpn, hsb, hcb, hpid]

theorem dispatch_shape (sb : StartBuild) (e : Event) :
    (dispatch sb e).fault = none ∨ (dispatch sb e).payloads = [] := by
  by_cases h1 : e.requestType = "Create"
  · rw [dispatch_create sb e h1]; exact handle_create_shape sb e
  · by_cases h2 : e.requestType = "Update"
    · rw [dispatch_update sb e h2]; exact handle_update_shape sb e
    · by_cases h3 : e.requestType = "Delete"
      · rw [dispatch_delete sb e h3]; exact handle_delete_shape sb e
      · rw [dispatch_other sb e h1 h2 h3]; exact Or.inl rfl

/-- C1: the claim states that an Update event with IgnoreUpdate false and
CodeBuildCallback true sends zero response payloads (delegation to the
build job). The code checks the misspelled property name CodeBuildCalback
there, so at this concrete input it sends exactly one SUCCESS payload,
contradicting the claim and the docstring of the handler. -/
theorem update_callback_misspelling :
    (lambda_handler (fun _ => Except.ok (BuildResult.mk "arnB" 1))
      (Event.mk "Update" "L" "R" "S" "U" (some "X")
        (some [("ProjectName", Value.str "p1"),
               ("CodeBuildCallback", Value.bool true)]))).payloads =
    [Payload.mk "SUCCESS" "Started CodeBuild #1" (some "X")] := by decide

/-- C2 counterexample: at a Create event with callback unset, the single
report has reason "Started CodeBuild #1", not "Started build #1" as the
claim states. -/
theorem create_reason_counterexample :
    (lambda_handler (fun _ => Except.ok (BuildResult.mk "arnC" 1))
      (Event.mk "Create" "L" "R" "S" "U" none
        (some [("ProjectName", Value.str "p1")]))).payloads.map Payload.reason =
      ["Started CodeBuild #1"]
    ∧ "Started CodeBuild #1" ≠ "Started build #1" := by decide

/-- C2 (amended): for every Create event with CodeBuildCallback absent or
falsy whose build start succeeds, exactly one report is sent, with status
SUCCESS, reason "Started CodeBuild #" followed by the build number, and
physical resource id equal to the started build ARN. -/
theorem create_no_callback_reports (sb : StartBuild) (e : Event) (props : Props)
    (pn : Value) (r : BuildResult)
    (hrt : e.requestType = "Create")
    (hp : e.resourceProperties = some props)
    (hpn : propGet props "ProjectName" = some pn)
    (hcb : truthyOpt (propGet props "CodeBuildCallback") = false)
    (hsb : sb (BuildRequest.mk pn (get_cfn_env_var_overrides e)) = Except.ok r) :
    lambda_handler sb e =
      HResult.mk [BuildRequest.mk pn (get_cfn_env_var_overrides e)]
        [Payload.mk "SUCCESS" ("Started CodeBuild #" ++ toString r.buildNumber)
          (some r.arn)]
        none := by
  have hc := handle_create_reports sb e props pn r hp hpn hcb hsb
  have hd := (dispatch_create sb e hrt).trans hc
  rw [lambda_handler_of_no_fault sb e (by rw [hd]), hd]

/-- C2 witness: the amended Create behaviour at a concrete event. -/
theorem create_no_callback_reports_witness :
    lambda_handler (fun _ => Except.ok (BuildResult.mk "arnC2" 3))
      (Event.mk "Create" "L" "R" "S" "U" none
        (some [("ProjectName", Value.str "p1")])) =
      HResult.mk
        [BuildRequest.mk (Value.str "p1")
          (get_cfn_env_var_overrides
            (Event.mk "Create" "L" "R" "S" "U" none
              (some [("ProjectName", Value.str "p1")])))]
        [Payload.mk "SUCCESS" ("Started CodeBuild #" ++ toString (3 : Nat))
          (some "arnC2")]
        none :=
  create_no_callback_reports (fun _ => Except.ok (BuildResult.mk "arnC2" 3))
    (Event.mk "Create" "L" "R" "S" "U" none
      (some [("ProjectName", Value.str "p1")]))
    [("ProjectName", Value.str "p1")] (Value.str "p1") (BuildResult.mk "arnC2" 3)
    rfl rfl rfl rfl rfl

/-- C3: for every Update event with IgnoreUpdate true, no build is started
and exactly one SUCCESS report with reason "Update is a no-op" is sent,
reusing the event incoming PhysicalResourceId. -/
theorem update_ignore_noop (sb : StartBuild) (e : Event) (pid : String)
    (hrt : e.requestType = "Update")
    (hiu : propGet (resConfig e) "IgnoreUpdate" = some (Value.bool true))
    (hpid : e.physicalResourceId = some pid) :
    lambda_handler sb e =
      HResult.mk [] [Payload.mk "SUCCESS" "Update is a no-op" (some pid)] none := by
  have hiu2 : truthyOpt (propGet (resConfig e) "IgnoreUpdate") = true := by
    rw [hiu]; rfl
  have hu := handle_update_ignores sb e pid hiu2 hpid
  have hd := (dispatch_update sb e hrt).trans hu
  rw [lambda_handler_of_no_fault sb e (by rw [hd]), hd]

/-- C3 witness: the no-op Update behaviour at a concrete event. -/
theorem update_ignore_noop_witness :
    lambda_handler (fun _ => Except.error (Fault.buildError "unused"))
      (Event.mk "Update" "L" "R" "S" "U" (some "X")
        (some [("IgnoreUpdate", Value.bool true)])) =
      HResult.mk [] [Payload.mk "SUCCESS" "Update is a no-op" (some "X")] none :=
  update_ignore_noop (fun _ => Except.error (Fault.buildError "unused"))
    (Event.mk "Update" "L" "R" "S" "U" (some "X")
      (some [("IgnoreUpdate", Value.bool true)]))
    "X" rfl rfl rfl

/-- C4: for every Delete event carrying a PhysicalResourceId, if
BuildOnDelete is absent or false then no build is started and exactly one
SUCCESS report with reason "Delete is a no-op" is sent with the incoming
id, and if BuildOnDelete is true then a build is started and a SUCCESS
report with reason "Deletion build initiated" is sent exactly when
CodeBuildCallback is falsy. -/
theorem delete_dispatch_behaviour (sb : StartBuild) (e : Event) (pid : String)
    (hrt : e.requestType = "Delete")
    (hpid : e.physicalResourceId = some pid) :
    ((propGet (resConfig e) "BuildOnDelete" = none ∨
      propGet (resConfig e) "BuildOnDelete" = some (Value.bool false)) →
      lambda_handler sb e =
        HResult.mk [] [Payload.mk "SUCCESS" "Delete is a no-op" (some pid)] none)
    ∧ (∀ pn r, propGet (resConfig e) "BuildOnDelete" = some (Value.bool true) →
        propGet (resConfig e) "ProjectName" = some pn →
        sb (BuildRequest.mk pn (get_cfn_env_var_overrides e)) = Except.ok r →
        lambda_handler sb e =
          HResult.mk [BuildRequest.mk pn (get_cfn_env_var_overrides e)]
            (if truthyOpt (propGet (resConfig e) "CodeBuildCallback") then []
             else [Payload.mk "SUCCESS" "Deletion build initiated" (some pid)])
            none) := by
  constructor
  · intro hbod
    have hbod2 : truthyOpt (propGet (resConfig e) "BuildOnDelete") = false := by
      rcases hbod with h | h <;> rw [h] <;> rfl
    have hD := handle_delete_noop sb e pid hbod2 hpid
    have hd := (dispatch_delete sb e hrt).trans hD
    rw [lambda_handler_of_no_fault sb e (by rw [hd]), hd]
  · intro pn r hbod hpn hsb
    have hbod2 : truthyOpt (propGet (resConfig e) "BuildOnDelete") = true := by
      rw [hbod]; rfl
    have hD := handle_delete_builds sb e pid pn r hbod2 hpn hsb hpid
    have hd := (dispatch_delete sb e hrt).trans hD
    rw [lambda_handler_of_no_fault sb e (by rw [hd]), hd]

/-- C4 witness: the no-op Delete behaviour at a concrete event. -/
theorem delete_dispatch_behaviour_witness :
    lambda_handler (fun _ => Except.error (Fault.buildError "unused"))
      (Event.mk "Delete" "L" "R" "S" "U" (some "X")
        (some [("BuildOnDelete", Value.bool false)])) =
      HResult.mk [] [Payload.mk "SUCCESS" "Delete is a no-op" (some "X")] none :=
  (delete_dispatch_behaviour (fun _ => Except.error (Fault.buildError "unused"))
    (Event.mk "Delete" "L" "R" "S" "U" (some "X")
      (some [("BuildOnDelete", Value.bool false)]))
    "X" rfl rfl).1 (Or.inr rfl)

/-- C5: for every event whose RequestType is none of Create, Update and
Delete, no build is started and exactly one FAILED report is sent, whose
reason cites the unsupported request type. -/
theorem unsupported_request_type_fails (sb : StartBuild) (e : Event)
    (h1 : e.requestType ≠ "Create") (h2 : e.requestType ≠ "Update")
    (h3 : e.requestType ≠ "Delete") :
    lambda_handler sb e =
      HResult.mk []
        [Payload.mk "FAILED"
          ("Unsupported CFN RequestType \x27" ++ e.requestType ++ "\x27") none]
        none := by
  have hd := dispatch_other sb e h1 h2 h3
  rw [lambda_handler_of_no_fault sb e (by rw [hd]), hd]

/-- C5 witness: the unsupported-type behaviour at a concrete event. -/
theorem unsupported_request_type_fails_witness :
    lambda_handler (fun _ => Except.error (Fault.buildError "unused"))
      (Event.mk "Banana" "L" "R" "S" "U" none none) =
      HResult.mk []
        [Payload.mk "FAILED" "Unsupported CFN RequestType \x27Banana\x27" none]
        none :=
  unsupported_request_type_fails (fun _ => Except.error (Fault.buildError "unused"))
    (Event.mk "Banana" "L" "R" "S" "U" none none)
    (by decide) (by decide) (by decide)

/-- C6: for every event whose handling raises a fault, exactly one FAILED
report is sent, its reason is the description of the fault, and the same
fault is re-raised to the invoking runtime. -/
theorem fault_reported_and_reraised (sb : StartBuild) (e : Event) (f : Fault)
    (h : (dispatch sb e).fault = some f) :
    (lambda_handler sb e).payloads = [Payload.mk "FAILED" (Fault.describe f) none]
    ∧ (lambda_handler sb e).fault = some f := by
  have hp : (dispatch sb e).payloads = [] := by
    rcases dispatch_shape sb e with h0 | h0
    · rw [h] at h0; exact absurd h0 (by simp)
    · exact h0
  rw [lambda_handler_of_fault sb e f h]
  exact ⟨by rw [hp]; rfl, rfl⟩

/-- C6 witness: a Create event with a failing build start is reported as
FAILED with the description of the fault, and the fault is re-raised. -/
theorem fault_reported_and_reraised_witness :
    (dispatch (fun _ => Except.error (Fault.buildError "AccessDenied"))
      (Event.mk "Create" "L" "R" "S" "U" none
        (some [("ProjectName", Value.str "p1")]))).fault =
      some (Fault.buildError "AccessDenied")
    ∧ ((lambda_handler (fun _ => Except.error (Fault.buildError "AccessDenied"))
        (Event.mk "Create" "L" "R" "S" "U" none
          (some [("ProjectName", Value.str "p1")]))).payloads =
        [Payload.mk "FAILED" "AccessDenied" none]
      ∧ (lambda_handler (fun _ => Except.error (Fault.buildError "AccessDenied"))
          (Event.mk "Create" "L" "R" "S" "U" none
            (some [("ProjectName", Value.str "p1")]))).fault =
          some (Fault.buildError "AccessDenied")) :=
  ⟨rfl,
    fault_reported_and_reraised (fun _ => Except.error (Fault.buildError "AccessDenied"))
      (Event.mk "Create" "L" "R" "S" "U" none
        (some [("ProjectName", Value.str "p1")]))
      (Fault.buildError "AccessDenied") rfl⟩

/-- C8: for every Create event with CodeBuildCallback true whose build
start succeeds, a build is started and the dispatcher sends zero reports. -/
theorem create_callback_no_report (sb : StartBuild) (e : Event) (props : Props)
    (pn : Value) (r : BuildResult)
    (hrt : e.requestType = "Create")
    (hp : e.resourceProperties = some props)
    (hpn : propGet props "ProjectName" = some pn)
    (hcb : propGet props "CodeBuildCallback" = some (Value.bool true))
    (hsb : sb (BuildRequest.mk pn (get_cfn_env_var_overrides e)) = Except.ok r) :
    lambda_handler sb e =
      HResult.mk [BuildRequest.mk pn (get_cfn_env_var_overrides e)] [] none := by
  have hcb2 : truthyOpt (propGet props "CodeBuildCallback") = true := by
    rw [hcb]; rfl
  have hc := handle_create_delegates sb e props pn r hp hpn hcb2 hsb
  have hd := (dispatch_create sb e hrt).trans hc
  rw [lambda_handler_of_no_fault sb e (by rw [hd]), hd]

/-- C8 witness: the delegating Create behaviour at a concrete event. -/
theorem create_callback_no_report_witness :
    lambda_handler (fun _ => Except.ok (BuildResult.mk "arnC8" 4))
      (Event.mk "Create" "L" "R" "S" "U" none
        (some [("ProjectName", Value.str "p1"),
               ("CodeBuildCallback", Value.bool true)])) =
      HResult.mk
        [BuildRequest.mk (Value.str "p1")
          (get_cfn_env_var_overrides
            (Event.mk "Create" "L" "R" "S" "U" none
              (some [("ProjectName", Value.str "p1"),
                     ("CodeBuildCallback", Value.bool true)])))]
        [] none :=
  create_callback_no_report (fun _ => Except.ok (BuildResult.mk "arnC8" 4))
    (Event.mk "Create" "L" "R" "S" "U" none
      (some [("ProjectName", Value.str "p1"),
             ("CodeBuildCallback", Value.bool true)]))
    [("ProjectName", Value.str "p1"), ("CodeBuildCallback", Value.bool true)]
    (Value.str "p1") (BuildResult.mk "arnC8" 4)
    rfl rfl rfl rfl rfl

/-- C9: for every Delete event lacking a PhysicalResourceId, whenever the
dispatcher builds its report (BuildOnDelete falsy, or BuildOnDelete truthy
with CodeBuildCallback falsy and a successful build start) it raises a
KeyError, sends a FAILED report with the description of that fault
instead of a SUCCESS one, and re-raises the fault. -/
theorem delete_missing_pid_faults (sb : StartBuild) (e : Event)
    (hrt : e.requestType = "Delete")
    (hpid : e.physicalResourceId = none) :
    (truthyOpt (propGet (resConfig e) "BuildOnDelete") = false →
      lambda_handler sb e =
        HResult.mk []
          [Payload.mk "FAILED" (Fault.describe (Fault.keyError "PhysicalResourceId")) none]
          (some (Fault.keyError "PhysicalResourceId")))
    ∧ (∀ pn r, truthyOpt (propGet (resConfig e) "BuildOnDelete") = true →
        truthyOpt (propGet (resConfig e) "CodeBuildCallback") = false →
        propGet (resConfig e) "ProjectName" = some pn →
        sb (BuildRequest.mk pn (get_cfn_env_var_overrides e)) = Except.ok r →
        lambda_handler sb e =
          HResult.mk [BuildRequest.mk pn (get_cfn_env_var_overrides e)]
            [Payload.mk "FAILED" (Fault.describe (Fault.keyError "PhysicalResourceId")) none]
            (some (Fault.keyError "PhysicalResourceId"))) := by
  constructor
  · intro hbod
    have hD := handle_delete_noop_missing_pid sb e hbod hpid
    have hd := (dispatch_delete sb e hrt).trans hD
    have hf : (dispatch sb e).fault = some (Fault.keyError "PhysicalResourceId") := by
      rw [hd]
    rw [lambda_handler_of_fault sb e (Fault.keyError "PhysicalResourceId") hf, hd]
    rfl
  · intro pn r hbod hcb hpn hsb
    have hD := handle_delete_builds_missing_pid sb e pn r hbod hcb hpn hsb hpid
    have hd := (dispatch_delete sb e hrt).trans hD
    have hf : (dispatch sb e).fault = some (Fault.keyError "PhysicalResourceId") := by
      rw [hd]
    rw [lambda_handler_of_fault sb e (Fault.keyError "PhysicalResourceId") hf, hd]
    rfl

/-- C9 witness: a no-op Delete without a PhysicalResourceId ends in a
FAILED report and a re-raised KeyError at a concrete event. -/
theorem delete_missing_pid_faults_witness :
    lambda_handler (fun _ => Except.error (Fault.buildError "unused"))
      (Event.mk "Delete" "L" "R" "S" "U" none (some [])) =
      HResult.mk []
        [Payload.mk "FAILED" (Fault.describe (Fault.keyError "PhysicalResourceId")) none]
        (some (Fault.keyError "PhysicalResourceId")) :=
  (delete_missing_pid_faults (fun _ => Except.error (Fault.buildError "unused"))
    (Event.mk "Delete" "L" "R" "S" "U" none (some []))
    rfl rfl).1 rfl

/-- C7: for every event, the environment overrides contain CFN_EVENT_TYPE
with the request type of the event, and they contain CFN_EVENT_DATA (the
JSON object with LogicalResourceId, RequestId, StackId, NoEcho and empty
Data) together with CFN_EVENT_RESPONSE_URL (the ResponseURL of the event)
exactly when the CodeBuildCallback property is truthy. -/
theorem env_var_overrides_shape (e : Event) :
    EnvVar.mk "CFN_EVENT_TYPE" "PLAINTEXT" e.requestType ∈ get_cfn_env_var_overrides e
    ∧ ((EnvVar.mk "CFN_EVENT_DATA" "PLAINTEXT" (cfnEventData e) ∈
          get_cfn_env_var_overrides e
        ∧ EnvVar.mk "CFN_EVENT_RESPONSE_URL" "PLAINTEXT" e.responseURL ∈
          get_cfn_env_var_overrides e)
       ↔ truthyOpt (propGet (resConfig e) "CodeBuildCallback") = true) := by
  by_cases hcb : truthyOpt (propGet (resConfig e) "CodeBuildCallback") = true
  · refine ⟨by simp [get_cfn_env_var_overrides, hcb], ?_, fun _ => by
      simp [get_cfn_env_var_overrides, hcb]⟩
    intro _
    exact hcb
  · refine ⟨by simp [get_cfn_env_var_overrides, hcb], ?_, fun hc => absurd hc hcb⟩
    rintro ⟨hdata, _⟩
    exfalso
    rw [get_cfn_env_var_overrides, if_neg hcb] at hdata
    have hname : ("CFN_EVENT_DATA" : String) = "CFN_EVENT_TYPE" :=
      congrArg EnvVar.name (List.mem_singleton.mp hdata)
    exact absurd hname (by decide)

theorem withProp_congr_bod (sb : StartBuild) (e : Event) (x y : Option Value)
    (hxy : truthyOpt x = truthyOpt y) :
    lambda_handler sb (e.withProp "BuildOnDelete" x) =
      lambda_handler sb (e.withProp "BuildOnDelete" y) := by
  have gS := fun z =>
    propGet_propSet_same (e.resourceProperties.getD []) "BuildOnDelete" z
  have gP := fun z =>
    propGet_propSet_ne (e.resourceProperties.getD []) "BuildOnDelete" "ProjectName" z
      (by decide)
  have gC := fun z =>
    propGet_propSet_ne (e.resourceProperties.getD []) "BuildOnDelete" "CodeBuildCallback"
      z (by decide)
  have gI := fun z =>
    propGet_propSet_ne (e.resourceProperties.getD []) "BuildOnDelete" "IgnoreUpdate" z
      (by decide)
  have gM := fun z =>
    propGet_propSet_ne (e.resourceProperties.getD []) "BuildOnDelete" "CodeBuildCalback"
      z (by decide)
  have gN := fun z =>
    propGet_propSet_ne (e.resourceProperties.getD []) "BuildOnDelete" "NoEcho" z
      (by decide)
  simp only [lambda_handler, dispatch, handle_create, handle_update, handle_delete,
    get_cfn_env_var_overrides, cfnEventData, Event.withProp, resConfig,
    Option.getD_some, gS, gP, gC, gI, gM, gN, hxy]

theorem withProp_congr_cbc (sb : StartBuild) (e : Event) (x y : Option Value)
    (hxy : truthyOpt x = truthyOpt y) :
    lambda_handler sb (e.withProp "CodeBuildCallback" x) =
      lambda_handler sb (e.withProp "CodeBuildCallback" y) := by
  have gS := fun z =>
    propGet_propSet_same (e.resourceProperties.getD []) "CodeBuildCallback" z
  have gP := fun z =>
    propGet_propSet_ne (e.resourceProperties.getD []) "CodeBuildCallback" "ProjectName"
      z (by decide)
  have gB := fun z =>
    propGet_propSet_ne (e.resourceProperties.getD []) "CodeBuildCallback" "BuildOnDelete"
      z (by decide)
  have gI := fun z =>
    propGet_propSet_ne (e.resourceProperties.getD []) "CodeBuildCallback" "IgnoreUpdate"
      z (by decide)
  have gM := fun z =>
    propGet_propSet_ne (e.resourceProperties.getD []) "CodeBuildCallback"
      "CodeBuildCalback" z (by decide)
  have gN := fun z =>
    propGet_propSet_ne (e.resourceProperties.getD []) "CodeBuildCallback" "NoEcho" z
      (by decide)
  simp only [lambda_handler, dispatch, handle_create, handle_update, handle_delete,
    get_cfn_env_var_overrides, cfnEventData, Event.withProp, resConfig,
    Option.getD_some, gS, gP, gB, gI, gM, gN, hxy]

theorem withProp_congr_iu (sb : StartBuild) (e : Event) (x y : Option Value)
    (hxy : truthyOpt x = truthyOpt y) :
    lambda_handler sb (e.withProp "IgnoreUpdate" x) =
      lambda_handler sb (e.withProp "IgnoreUpdate" y) := by
  have gS := fun z =>
    propGet_propSet_same (e.resourceProperties.getD []) "IgnoreUpdate" z
  have gP := fun z =>
    propGet_propSet_ne (e.resourceProperties.getD []) "IgnoreUpdate" "ProjectName" z
      (by decide)
  have gB := fun z =>
    propGet_propSet_ne (e.resourceProperties.getD []) "IgnoreUpdate" "BuildOnDelete" z
      (by decide)
  have gC := fun z =>
    propGet_propSet_ne (e.resourceProperties.getD []) "IgnoreUpdate" "CodeBuildCallback"
      z (by decide)
  have gM := fun z =>
    propGet_propSet_ne (e.resourceProperties.getD []) "IgnoreUpdate" "CodeBuildCalback"
      z (by decide)
  have gN := fun z =>
    propGet_propSet_ne (e.resourceProperties.getD []) "IgnoreUpdate" "NoEcho" z
      (by decide)
  simp only [lambda_handler, dispatch, handle_create, handle_update, handle_delete,
    get_cfn_env_var_overrides, cfnEventData, Event.withProp, resConfig,
    Option.getD_some, gS, gP, gB, gC, gM, gN, hxy]

/-- C10: the flag properties BuildOnDelete, CodeBuildCallback and
IgnoreUpdate are interpreted by Python truthiness of the raw value: the
dispatcher behaves identically on any two values of such a flag with the
same truthiness (absence included), and truthiness classifies every
non-empty string (the string "false" included) as true, and absence, the
empty string, 0 and false as false. -/
theorem flag_truthiness (sb : StartBuild) (e : Event) (k : String)
    (x y : Option Value)
    (hk : k = "BuildOnDelete" ∨ k = "CodeBuildCallback" ∨ k = "IgnoreUpdate")
    (hxy : truthyOpt x = truthyOpt y) :
    lambda_handler sb (e.withProp k x) = lambda_handler sb (e.withProp k y)
    ∧ (∀ s, s ≠ "" → truthyOpt (some (Value.str s)) = true)
    ∧ truthyOpt (some (Value.str "false")) = true
    ∧ truthyOpt (some (Value.str "")) = false
    ∧ truthyOpt none = false
    ∧ truthyOpt (some (Value.bool false)) = false
    ∧ truthyOpt (some (Value.num 0)) = false := by
  refine ⟨?_, ?_, by decide, by decide, by decide, by decide, by decide⟩
  · rcases hk with rfl | rfl | rfl
    · exact withProp_congr_bod sb e x y hxy
    · exact withProp_congr_cbc sb e x y hxy
    · exact withProp_congr_iu sb e x y hxy
  · intro s hs
    simp only [truthyOpt, truthy, decide_eq_true_eq]
    exact hs

/-- C10 witness: with BuildOnDelete set to the string "false" the
dispatcher behaves as with the flag set to true, at a concrete event. -/
theorem flag_truthiness_witness :
    truthyOpt (some (Value.str "false")) = truthyOpt (some (Value.bool true))
    ∧ lambda_handler (fun _ => Except.ok (BuildResult.mk "arnT" 9))
        ((Event.mk "Delete" "L" "R" "S" "U" (some "X")
          (some [("ProjectName", Value.str "p1")])).withProp "BuildOnDelete"
          (some (Value.str "false"))) =
      lambda_handler (fun _ => Except.ok (BuildResult.mk "arnT" 9))
        ((Event.mk "Delete" "L" "R" "S" "U" (some "X")
          (some [("ProjectName", Value.str "p1")])).withProp "BuildOnDelete"
          (some (Value.bool true))) :=
  ⟨by decide,
    (flag_truthiness (fun _ => Except.ok (BuildResult.mk "arnT" 9))
      (Event.mk "Delete" "L" "R" "S" "U" (some "X")
        (some [("ProjectName", Value.str "p1")]))
      "BuildOnDelete" (some (Value.str "false")) (some (Value.bool true))
      (Or.inl rfl) (by decide)).1⟩

end CodeBuildTrigger
